import Mathlib

/-!
Verification of the StudyBuddy backend (PDF-to-study-material pipeline)
against its natural-language specification.

The definitions below are a shallow embedding of the Python source:
  * `database.py`  — the Catalog (sqlite tables `pdfs` and `user_pdfs`)
  * `cloud_storage.py` — the remote tier of the ContentStore
  * `app.py` — the `/process-pdf` handler, its streaming `generate()` body,
    and the quiz parse/validate/retry core of `/generate-quiz`.
Side effects that no claim mentions (logging, scratch-file writes that do
not influence any returned value, the best-effort GCS replication of the
database file) are not represented; every value-relevant branch of the
source is.  External capabilities (the AI model, the TTS service, the
rasterizer, the GCS SDK) are black boxes per the spec, so each is modelled
by an explicit outcome parameter: either a returned value or a raised
exception.
-/

namespace StudyBuddy

/-! ## Catalog data model (database.py)

A row of the `pdfs` table (`init_db_schema`, database.py): the
`pdf_hash` column carries a UNIQUE constraint. -/

structure PdfRow where
  pdf_id : Nat
  title : String
  file_path : String
  pdf_hash : String
  file_size : Nat
  page_count : Nat
deriving DecidableEq, Repr

/-- A row of the `user_pdfs` join table (`init_db_schema`, database.py). -/
structure LinkRow where
  id : Nat
  user_id : Nat
  pdf_id : Nat
deriving DecidableEq, Repr

/-- The sqlite state the claims touch: the `pdfs` and `user_pdfs` tables,
with the AUTOINCREMENT counters made explicit. Rows are kept in insertion
order, matching sqlite scan order for these un-indexed queries. -/
structure Catalog where
  pdfs : List PdfRow
  user_pdfs : List LinkRow
  nextPdfId : Nat
  nextLinkId : Nat
deriving DecidableEq, Repr

/-- `get_pdf_by_hash` (database.py): `SELECT * FROM pdfs WHERE pdf_hash = ?`
followed by `fetchone()` — the first matching row, if any. -/
def get_pdf_by_hash (db : Catalog) (pdf_hash : String) : Option PdfRow :=
  db.pdfs.find? (fun r => r.pdf_hash == pdf_hash)

/-- `add_pdf` (database.py): first `SELECT pdf_id FROM pdfs WHERE pdf_hash = ?`;
if a row exists return its `pdf_id` without inserting, otherwise INSERT the
new row and return `lastrowid`. Returns the updated catalog and the id. -/
def add_pdf (db : Catalog) (title file_path pdf_hash : String)
    (file_size page_count : Nat) : Catalog × Nat :=
  match db.pdfs.find? (fun r => r.pdf_hash == pdf_hash) with
  | some r => (db, r.pdf_id)
  | none =>
      let row : PdfRow :=
        ⟨db.nextPdfId, title, file_path, pdf_hash, file_size, page_count⟩
      ({ db with pdfs := db.pdfs ++ [row], nextPdfId := db.nextPdfId + 1 },
       db.nextPdfId)

/-- `associate_pdf_with_user` (database.py): `SELECT id FROM user_pdfs WHERE
user_id = ? AND pdf_id = ?`; if a row exists return its `id`, otherwise
INSERT the association and return `lastrowid`. -/
def associate_pdf_with_user (db : Catalog) (user_id pdf_id : Nat) :
    Catalog × Nat :=
  match db.user_pdfs.find? (fun l => l.user_id == user_id && l.pdf_id == pdf_id) with
  | some l => (db, l.id)
  | none =>
      ({ db with
          user_pdfs := db.user_pdfs ++ [⟨db.nextLinkId, user_id, pdf_id⟩],
          nextLinkId := db.nextLinkId + 1 },
       db.nextLinkId)

/-- The `user_pdfs` invariant: no two rows share the same
(user_id, pdf_id) pair. -/
def AtMostOneLinkPerPair (db : Catalog) : Prop :=
  db.user_pdfs.Pairwise (fun a b => a.user_id ≠ b.user_id ∨ a.pdf_id ≠ b.pdf_id)

instance (db : Catalog) : Decidable (AtMostOneLinkPerPair db) :=
  inferInstanceAs (Decidable (List.Pairwise _ _))

/-! ## SQL LIKE matching (semantics of sqlite `LIKE`, used by
`get_pdf_versions_by_name` in database.py)

In a sqlite LIKE pattern, `%` matches any sequence of characters and `_`
matches exactly one arbitrary character; every other character matches
case-insensitively for ASCII (sqlite's default LIKE behaviour — the
repository sets no `PRAGMA case_sensitive_like` and no `COLLATE`
override), which `Char.toLower` (ASCII-only lowering) captures exactly.
`likeFuel` is a fuel-indexed matcher (each recursive call shrinks the
pattern or the string, so `pattern.length + s.length` fuel always
suffices); `sqlLikeMatch` instantiates the fuel so the function is
structurally recursive and computable by `decide`. -/

def likeFuel : Nat → List Char → List Char → Bool
  | 0, p, s => p.isEmpty && s.isEmpty
  | _ + 1, [], s => s.isEmpty
  | f + 1, b :: bs, s =>
      if b = '%' then
        likeFuel f bs s ||
          (match s with
           | [] => false
           | _ :: t => likeFuel f (b :: bs) t)
      else
        match s with
        | [] => false
        | c :: t => (b = '_' || b.toLower = c.toLower) && likeFuel f bs t

/-- sqlite `LIKE` evaluation: does string `s` match pattern `p`? -/
def sqlLikeMatch (p s : List Char) : Bool :=
  likeFuel (p.length + s.length) p s

/-- `get_pdf_versions_by_name` (database.py): the exact-match query
`SELECT file_path FROM pdfs WHERE file_path = ?` followed by the wildcard
query `... WHERE file_path LIKE ?` with pattern `base_name + '_%'`, the
two result lists concatenated in that order. -/
def get_pdf_versions_by_name (db : Catalog) (base_name : String) : List String :=
  ((db.pdfs.filter (fun r => r.file_path == base_name)).map fun r => r.file_path)
  ++ ((db.pdfs.filter
        (fun r => sqlLikeMatch (base_name.data ++ ['_', '%']) r.file_path.data)).map
      fun r => r.file_path)

/-- Modelled from the claim C10's words, for refinement comparison only
(not from the source): a stored path should be returned iff it equals the
base name, or begins with the base name followed by a literal underscore
and a non-empty suffix. -/
def claimedVersionMatch (base path : String) : Bool :=
  path == base ||
    ((base ++ "_").data.isPrefixOf path.data && path != base ++ "_")

/-! ## ContentStore remote tier (cloud_storage.py)

Every operation first calls `get_storage_client()`; a `None` client means
the remote tier is unavailable.  Each underlying GCS SDK call either
returns a value or raises; `StorageOutcome` records which, per key.  The
embedded operations return `Except Unit α`: `Except.error ()` means the
Python function lets an exception escape to its caller, `Except.ok v`
means it returns `v` (`none` / `false` / `[]` being the degraded-failure
returns). -/

inductive StorageOutcome (α : Type) where
  | ok (value : α)
  | raises

/-- One remote-tier behaviour: client availability plus, per key, the
outcome of each underlying GCS SDK call. -/
structure RemoteTier where
  clientAvailable : Bool
  uploadOutcome : String → StorageOutcome Unit
  uploadFromFilenameOutcome : String → StorageOutcome Unit
  downloadToFilenameOutcome : String → StorageOutcome Unit
  downloadBytesOutcome : String → StorageOutcome String
  existsOutcome : String → StorageOutcome Bool
  signedUrlOutcome : String → StorageOutcome String
  listOutcome : String → StorageOutcome (List String)

/-- `upload_file` (cloud_storage.py): no client → return None; otherwise
`blob.upload_from_string` inside try/except — on success return
`blob.name` (the destination path), on exception return None. -/
def upload_file (t : RemoteTier) (_file_content file_path : String) :
    Except Unit (Option String) :=
  if t.clientAvailable then
    match t.uploadOutcome file_path with
    | .ok _ => .ok (some file_path)
    | .raises => .ok none
  else .ok none

/-- `upload_from_filename` (cloud_storage.py): same shape as
`upload_file`, wrapping `blob.upload_from_filename` in try/except. -/
def upload_from_filename (t : RemoteTier) (_local_file_path file_path : String) :
    Except Unit (Option String) :=
  if t.clientAvailable then
    match t.uploadFromFilenameOutcome file_path with
    | .ok _ => .ok (some file_path)
    | .raises => .ok none
  else .ok none

/-- `download_file` (cloud_storage.py): no client → return None; otherwise
calls `blob.download_to_filename(local_path)` with NO try/except — an SDK
exception propagates to the caller — and returns `local_path`. -/
def download_file (t : RemoteTier) (file_path local_path : String) :
    Except Unit (Option String) :=
  if t.clientAvailable then
    match t.downloadToFilenameOutcome file_path with
    | .ok _ => .ok (some local_path)
    | .raises => .error ()
  else .ok none

/-- `download_as_string` (cloud_storage.py): no client → None; otherwise
`blob.download_as_bytes` in try/except, exception → None. -/
def download_as_string (t : RemoteTier) (file_path : String) :
    Except Unit (Option String) :=
  if t.clientAvailable then
    match t.downloadBytesOutcome file_path with
    | .ok s => .ok (some s)
    | .raises => .ok none
  else .ok none

/-- `generate_signed_url` (cloud_storage.py): no client → None; the whole
body (existence check then URL generation) is in one try/except, every
failure path returning None. -/
def generate_signed_url (t : RemoteTier) (file_path : String) :
    Except Unit (Option String) :=
  if t.clientAvailable then
    match t.existsOutcome file_path with
    | .raises => .ok none
    | .ok false => .ok none
    | .ok true =>
        match t.signedUrlOutcome file_path with
        | .ok url => .ok (some url)
        | .raises => .ok none
  else .ok none

/-- `check_if_file_exists` (cloud_storage.py): the explicit existence
probe; no client → False, `blob.exists()` in try/except, exception →
False. -/
def check_if_file_exists (t : RemoteTier) (file_path : String) :
    Except Unit Bool :=
  if t.clientAvailable then
    match t.existsOutcome file_path with
    | .ok b => .ok b
    | .raises => .ok false
  else .ok false

/-- `list_files_with_prefix` (cloud_storage.py): no client → `[]`;
`bucket.list_blobs` in try/except, exception → `[]`. -/
def list_files_with_prefix (t : RemoteTier) (pfx : String) :
    Except Unit (List String) :=
  if t.clientAvailable then
    match t.listOutcome pfx with
    | .ok names => .ok names
    | .raises => .ok []
  else .ok []

/-! ## IngestPipeline streaming body (the `generate()` closure inside
`process_pdf`, app.py)

One page's external-capability outcomes: the AI explanation call (returns
the explanation text, or raises with a message) and the TTS call (returns
the audio bytes, or raises — the code also converts empty returned audio
into a raise inside the same try block). -/

instance exceptDecEq {ε α : Type} [DecidableEq ε] [DecidableEq α] :
    DecidableEq (Except ε α)
  | .error e₁, .error e₂ =>
      if h : e₁ = e₂ then .isTrue (by rw [h]) else .isFalse (by simp [h])
  | .error _, .ok _ => .isFalse (by simp)
  | .ok _, .error _ => .isFalse (by simp)
  | .ok a₁, .ok a₂ =>
      if h : a₁ = a₂ then .isTrue (by rw [h]) else .isFalse (by simp [h])

structure PageInputs where
  explainResult : Except String String
  ttsResult : Except String (List Nat)
deriving DecidableEq, Repr

/-- The explanation the page event carries (app.py, the try/except around
`model.generate_content`): the returned text, or on exception the
placeholder string built from the page number and the error message. -/
def explanationOf (page_number : Nat) : Except String String → String
  | .ok text => text
  | .error msg =>
      "Failed to generate explanation for page " ++ toString page_number
        ++ ": " ++ msg

/-- The audio bytes the page event carries (app.py, the try/except around
the TTS request): the returned bytes, or `b""` on any exception. -/
def audioOf : Except String (List Nat) → List Nat
  | .ok bs => bs
  | .error _ => []

/-- app.py: `progress_percentage = 30 + int((page_number - 1) * 65 /
page_count)` — Nat division is the floor the Python `int()` computes
here. -/
def progress_percentage (page_number page_count : Nat) : Nat :=
  30 + (page_number - 1) * 65 / page_count

/-- The newline-delimited JSON events `generate()` yields.  Fields that no
claim mentions (the base64 image payload, the audio/image URLs, the
human-readable messages) are omitted. -/
inductive StreamEvent where
  | info (total_pages : Nat) (pdf_name : String)
  | progress (progress page total_pages : Nat)
  | page (page_number : Nat) (explanation : String) (audio : List Nat)
  | complete (pdf_name : String)
  | error (msg : String)
deriving DecidableEq, Repr

/-- The `for i, image in enumerate(images)` loop body of `generate()`
(app.py): for each page, in order, a `progress` event followed by a `page`
event carrying the (possibly degraded) explanation and audio; `idx` is the
0-based loop index. -/
def processPages (N : Nat) : Nat → List PageInputs → List StreamEvent
  | _, [] => []
  | idx, p :: rest =>
      .progress (progress_percentage (idx + 1) N) (idx + 1) N ::
      .page (idx + 1) (explanationOf (idx + 1) p.explainResult)
        (audioOf p.ttsResult) ::
      processPages N (idx + 1) rest

/-- The successful-rasterization path of `generate()` (app.py): one `info`
event with the page count, the per-page events, then one `complete`
event. -/
def generateEvents (pdf_id : String) (pages : List PageInputs) :
    List StreamEvent :=
  .info pages.length pdf_id ::
    (processPages pages.length 0 pages ++ [.complete pdf_id])

/-- `generate()` (app.py) as a whole: its body is wrapped in try/except —
if rasterization (`convert_from_path`) raises, the stream is the single
`error` event; otherwise the success-path events. -/
def generate (pdf_id : String) (raster : Except String (List PageInputs)) :
    List StreamEvent :=
  match raster with
  | .error e => [.error e]
  | .ok pages => generateEvents pdf_id pages

/-- Page numbers of the `page` events of a stream, in emission order. -/
def pageNumbers (evs : List StreamEvent) : List Nat :=
  evs.filterMap fun e =>
    match e with
    | .page n _ _ => some n
    | _ => none

/-- Progress values of the `progress` events of a stream, in emission
order. -/
def progressValues (evs : List StreamEvent) : List Nat :=
  evs.filterMap fun e =>
    match e with
    | .progress p _ _ => some p
    | _ => none

/-! ## The `/process-pdf` handler (app.py) -/

/-- app.py: `re.sub(r'[^\w\-]', '_', original_pdf_name).lower()` — every
character other than a word character or hyphen becomes an underscore,
then the result is lowercased. -/
def clean_pdf_name (s : String) : String :=
  String.mk (s.data.map fun c =>
    if c.isAlphanum || c = '_' || c = '-' then c.toLower else '_')

/-- What `/process-pdf` hands back to the HTTP layer: either the
single-JSON `existing` short-circuit response, or a streaming response of
events under a freshly derived storage key. -/
inductive ProcessResponse where
  | existing (pdf_name : String)
  | stream (pdf_name : String) (events : List StreamEvent)
deriving DecidableEq, Repr

/-- The `/process-pdf` handler from the point the content hash is known
(app.py): look the hash up; if found, link the calling user to the
existing record and return the single `existing` response carrying the
existing record's `file_path`; otherwise derive the storage key
`clean_name + "_" + unix_timestamp`, and stream `generate()` — whose
success path first inserts the new record (`add_pdf`) and links the user.
Returns the final catalog alongside the response. -/
def process_pdf (db : Catalog) (user_id : Nat) (filename : String)
    (pdf_hash : String) (file_size : Nat) (timestamp : Nat)
    (raster : Except String (List PageInputs)) : Catalog × ProcessResponse :=
  match get_pdf_by_hash db pdf_hash with
  | some r =>
      ((associate_pdf_with_user db user_id r.pdf_id).1, .existing r.file_path)
  | none =>
      let pdf_id := clean_pdf_name filename ++ "_" ++ toString timestamp
      match raster with
      | .error e => (db, .stream pdf_id [.error e])
      | .ok pages =>
          let inserted := add_pdf db filename pdf_id pdf_hash file_size pages.length
          let db2 := (associate_pdf_with_user inserted.1 user_id inserted.2).1
          (db2, .stream pdf_id (generateEvents pdf_id pages))

/-! ## Quiz generation core (`generate_quiz`, app.py)

The model's free-text reply goes through fence-stripping, trailing-comma
repair and `json.loads`; that parsing step is a black box whose outcome is
either a raised `JSONDecodeError` or a parsed JSON value. -/

inductive Json where
  | str (s : String)
  | num (n : Int)
  | boolean (b : Bool)
  | null
  | arr (items : List Json)
  | obj (fields : List (String × Json))

/-- `'key' in item` on a parsed JSON object. -/
def hasKey (fields : List (String × Json)) (k : String) : Bool :=
  fields.any fun f => f.1 == k

/-- The validation loop of `generate_quiz` (app.py): walk the items in
order; the first non-dictionary item raises `ValueError("Quiz item is not
a dictionary")`, the first item missing one of the three required keys
raises `ValueError("Quiz item is missing required fields")`. `none` means
the loop finished without raising. -/
def validateItems : List Json → Option String
  | [] => none
  | .obj fields :: rest =>
      if hasKey fields "question" && hasKey fields "options"
          && hasKey fields "correctAnswer" then
        validateItems rest
      else some "Quiz item is missing required fields"
  | _ :: _ => some "Quiz item is not a dictionary"

/-- The shape validation of `generate_quiz` (app.py): a non-list raises
`ValueError("Quiz data is not a list")`, otherwise the item loop runs. -/
def quizValidationError : Json → Option String
  | .arr items => validateItems items
  | _ => some "Quiz data is not a list"

/-- Outcome of one parse attempt on a model reply: `json.loads` raised
`JSONDecodeError`, or produced a JSON value. -/
inductive QuizAttemptOutcome where
  | parseFailure
  | parsed (j : Json)

/-- What the quiz route hands back: `jsonify(data)` with 200, the fixed
`{'error': 'Failed to generate valid quiz format'}` 500 after a failed
retry, or the outer catch-all `{'error': str(e)}` 500. -/
inductive QuizResult where
  | success (data : Json)
  | malformedFailure
  | errorResponse (msg : String)

/-- The parse/validate/retry core of `generate_quiz` (app.py).  The first
attempt's parse and validation run inside `try ... except
json.JSONDecodeError`: a parsed reply that fails validation raises
`ValueError`, which that handler does not catch, so it escapes to the
route's outer `except Exception` (an error response, no retry).  Only a
parse failure reaches the retry, whose parsed result is returned with no
shape validation at all; if the retry also fails, the fixed
malformed-format failure is returned. -/
def generate_quiz_core (first retry : QuizAttemptOutcome) : QuizResult :=
  match first with
  | .parsed j =>
      match quizValidationError j with
      | none => .success j
      | some msg => .errorResponse msg
  | .parseFailure =>
      match retry with
      | .parsed j2 => .success j2
      | .parseFailure => .malformedFailure

/-- Modelled from the claim C2's words, for refinement comparison only
(not from the source): a fully validated quiz would be exactly 5 items,
each an object with a question, exactly 4 options, and a correctAnswer
letter in {A, B, C, D}. -/
def isCorrectLetter : Json → Bool
  | .str s => s == "A" || s == "B" || s == "C" || s == "D"
  | _ => false

/-- Field lookup on a parsed JSON object. -/
def lookupField (fields : List (String × Json)) (k : String) : Option Json :=
  (fields.find? fun f => f.1 == k).map fun f => f.2

/-- Modelled from the claim C2's words (continued): the per-question part
of the claimed shape. -/
def claimedQuestionShape : Json → Bool
  | .obj fields =>
      hasKey fields "question" &&
      (match lookupField fields "options" with
       | some (.arr opts) => opts.length == 4
       | _ => false) &&
      (match lookupField fields "correctAnswer" with
       | some v => isCorrectLetter v
       | none => false)
  | _ => false

/-- Modelled from the claim C2's words (continued): the claimed
whole-quiz shape. -/
def claimedQuizShape : Json → Bool
  | .arr items => items.length == 5 && items.all claimedQuestionShape
  | _ => false

/-! ## Concrete fixtures used by witnesses and counterexamples -/

/-- A catalog row for an already-ingested PDF. -/
def samplePdf : PdfRow :=
  ⟨7, "Notes", "notes_1700000000", "abc123", 1024, 3⟩

/-- A catalog holding `samplePdf`, already linked to user 1. -/
def sampleDb : Catalog :=
  ⟨[samplePdf], [⟨5, 1, 7⟩], 8, 6⟩

/-- A remote tier whose client is unavailable. -/
def offlineTier : RemoteTier :=
  ⟨false, fun _ => .raises, fun _ => .raises, fun _ => .raises,
    fun _ => .raises, fun _ => .raises, fun _ => .raises, fun _ => .raises⟩

/-- A remote tier whose client is available but whose every SDK call
raises. -/
def raisingTier : RemoteTier :=
  ⟨true, fun _ => .raises, fun _ => .raises, fun _ => .raises,
    fun _ => .raises, fun _ => .raises, fun _ => .raises, fun _ => .raises⟩

/-- A catalog with two records whose storage keys extend `"notes"`
without an underscore — the second also differing in ASCII case. -/
def versionsDb : Catalog :=
  ⟨[⟨1, "notesX", "notesX", "h1", 10, 1⟩,
    ⟨2, "NotesXY", "NotesXY", "h2", 11, 1⟩], [], 3, 1⟩

/-- A parsed quiz reply that passes the code's validation (list of
objects with the three required keys) while having one question, two
options and correctAnswer `"E"`. -/
def badQuiz : Json :=
  .arr [.obj [("question", .str "Which letter?"),
              ("options", .arr [.str "A", .str "B"]),
              ("correctAnswer", .str "E")]]

/-- A well-formed three-question quiz item. -/
def goodQuizItem : Json :=
  .obj [("question", .str "Q"),
        ("options", .arr [.str "a", .str "b", .str "c", .str "d"]),
        ("correctAnswer", .str "A"),
        ("explanation", .str "why")]

/-- A well-formed three-question retry reply. -/
def goodQuiz3 : Json := .arr [goodQuizItem, goodQuizItem, goodQuizItem]

/-- A page whose both capability calls succeed. -/
def neutralPage : PageInputs := ⟨.ok "text", .ok [0]⟩

/-- Three successful pages. -/
def threePages : List PageInputs := [neutralPage, neutralPage, neutralPage]

/-- Two pages, the first failing both the explanation and the TTS call. -/
def failingPages : List PageInputs :=
  [⟨.error "boom", .error "tts down"⟩, neutralPage]

/-! ## Helper lemmas: catalog operations -/

lemma associate_pdfs_unchanged (db : Catalog) (u p : Nat) :
    (associate_pdf_with_user db u p).1.pdfs = db.pdfs := by
  unfold associate_pdf_with_user
  cases db.user_pdfs.find? (fun l => l.user_id == u && l.pdf_id == p) <;> rfl

lemma associate_link_mem (db : Catalog) (u p : Nat) :
    ∃ l ∈ (associate_pdf_with_user db u p).1.user_pdfs,
      l.user_id = u ∧ l.pdf_id = p := by
  unfold associate_pdf_with_user
  cases hf : db.user_pdfs.find? (fun l => l.user_id == u && l.pdf_id == p) with
  | some l =>
      refine ⟨l, List.mem_of_find?_eq_some hf, ?_⟩
      have hp := List.find?_some hf
      simp only [Bool.and_eq_true, beq_iff_eq] at hp
      exact hp
  | none =>
      exact ⟨⟨db.nextLinkId, u, p⟩, by simp, rfl, rfl⟩

lemma associate_preserves_invariant (db : Catalog) (u p : Nat)
    (hinv : AtMostOneLinkPerPair db) :
    AtMostOneLinkPerPair (associate_pdf_with_user db u p).1 := by
  unfold AtMostOneLinkPerPair at *
  unfold associate_pdf_with_user
  cases hf : db.user_pdfs.find? (fun l => l.user_id == u && l.pdf_id == p) with
  | some l => exact hinv
  | none =>
      simp only
      rw [List.pairwise_append]
      refine ⟨hinv, List.pairwise_singleton _ _, ?_⟩
      intro a ha b hb
      simp only [List.mem_singleton] at hb
      subst hb
      have := List.find?_eq_none.mp hf a ha
      simp only [Bool.and_eq_true, beq_iff_eq, not_and] at this
      by_cases hu : a.user_id = u
      · exact Or.inr (this hu)
      · exact Or.inl hu

/-! ## Claim theorems -/

/-- C1: for every catalog state, user and PDF content whose hash is
already recorded, `process_pdf` returns the single `existing` response
carrying the first record's storage key (never a processing stream),
creates no second PdfRecord, and links the calling user to the existing
record. -/
theorem C1_process_pdf_dedup (db : Catalog) (u : Nat) (fn h : String)
    (fs ts : Nat) (raster : Except String (List PageInputs)) (r : PdfRow)
    (hr : get_pdf_by_hash db h = some r) :
    (process_pdf db u fn h fs ts raster).2 = .existing r.file_path ∧
    (process_pdf db u fn h fs ts raster).1.pdfs = db.pdfs ∧
    ∃ l ∈ (process_pdf db u fn h fs ts raster).1.user_pdfs,
      l.user_id = u ∧ l.pdf_id = r.pdf_id := by
  unfold process_pdf
  rw [hr]
  exact ⟨rfl, associate_pdfs_unchanged db u r.pdf_id,
    associate_link_mem db u r.pdf_id⟩

theorem C1_process_pdf_dedup_witness :
    (process_pdf sampleDb 2 "Notes" "abc123" 1024 1700000001 (.ok [])).2 =
        .existing "notes_1700000000" ∧
    (process_pdf sampleDb 2 "Notes" "abc123" 1024 1700000001 (.ok [])).1.pdfs =
        sampleDb.pdfs ∧
    ∃ l ∈ (process_pdf sampleDb 2 "Notes" "abc123" 1024 1700000001
        (.ok [])).1.user_pdfs, l.user_id = 2 ∧ l.pdf_id = 7 :=
  C1_process_pdf_dedup sampleDb 2 "Notes" "abc123" 1024 1700000001 (.ok [])
    samplePdf (by decide)

/-- C6: when a record with the given content hash already exists,
`add_pdf` returns the existing record's id and leaves the catalog — in
particular the `pdfs` table — completely unchanged, with no error. -/
theorem C6_add_pdf_idempotent (db : Catalog) (t fp h : String)
    (fs pc : Nat) (r : PdfRow) (hr : get_pdf_by_hash db h = some r) :
    add_pdf db t fp h fs pc = (db, r.pdf_id) := by
  unfold add_pdf
  unfold get_pdf_by_hash at hr
  rw [hr]

theorem C6_add_pdf_idempotent_witness :
    add_pdf sampleDb "Other title" "other_1700000002" "abc123" 99 2 =
      (sampleDb, 7) :=
  C6_add_pdf_idempotent sampleDb "Other title" "other_1700000002" "abc123"
    99 2 samplePdf (by decide)

/-- C9: `associate_pdf_with_user` is idempotent — when a link for the
(user_id, pdf_id) pair exists, the call is a no-op returning the existing
link's id — and every sequence of calls preserves the invariant that at
most one link row exists per (user_id, pdf_id) pair. -/
theorem C9_link_user_idempotent (db : Catalog) (u p : Nat) :
    (∀ l, db.user_pdfs.find?
        (fun l => l.user_id == u && l.pdf_id == p) = some l →
      associate_pdf_with_user db u p = (db, l.id)) ∧
    (AtMostOneLinkPerPair db →
      AtMostOneLinkPerPair (associate_pdf_with_user db u p).1) ∧
    (∀ calls : List (Nat × Nat), AtMostOneLinkPerPair db →
      AtMostOneLinkPerPair
        (calls.foldl (fun d c => (associate_pdf_with_user d c.1 c.2).1) db)) := by
  refine ⟨?_, associate_preserves_invariant db u p, ?_⟩
  · intro l hl
    unfold associate_pdf_with_user
    rw [hl]
  · intro calls
    induction calls generalizing db with
    | nil => exact fun h => h
    | cons c rest ih =>
        intro h
        exact ih _ (associate_preserves_invariant db c.1 c.2 h)

theorem C9_link_user_idempotent_witness :
    associate_pdf_with_user sampleDb 1 7 = (sampleDb, 5) ∧
    AtMostOneLinkPerPair (associate_pdf_with_user sampleDb 1 7).1 ∧
    AtMostOneLinkPerPair
      ([((1 : Nat), (7 : Nat)), (2, 7)].foldl
        (fun d c => (associate_pdf_with_user d c.1 c.2).1) sampleDb) :=
  ⟨(C9_link_user_idempotent sampleDb 1 7).1 ⟨5, 1, 7⟩ (by decide),
   (C9_link_user_idempotent sampleDb 1 7).2.1 (by decide),
   (C9_link_user_idempotent sampleDb 1 7).2.2 [(1, 7), (2, 7)] (by decide)⟩

/-- C4 counterexample: with an available client whose underlying download
raises, `download_file` lets the exception escape to its caller
(`Except.error ()` in this embedding) instead of returning a null failure
value — refuting the claim that every listed operation degrades. -/
theorem C4_download_file_escapes :
    download_file raisingTier "database/studybuddy.db"
      "instance/studybuddy.db" = .error () := rfl

/-- C4 (amended): for every remote-tier failure and every key,
`upload_file`, `upload_from_filename`, `download_as_string`,
`generate_signed_url` and `list_files_with_prefix` return a
null/false/empty-list failure value rather than raising; `download_file`
does so only when the client is unavailable, and propagates exceptions of
the underlying storage operation. -/
theorem C4_degrade_except_download (t : RemoteTier)
    (content key localPath : String) :
    (∃ v, upload_file t content key = .ok v) ∧
    (∃ v, upload_from_filename t localPath key = .ok v) ∧
    (∃ v, download_as_string t key = .ok v) ∧
    (∃ v, generate_signed_url t key = .ok v) ∧
    (∃ v, list_files_with_prefix t key = .ok v) ∧
    (t.clientAvailable = false → download_file t key localPath = .ok none) ∧
    (t.downloadToFilenameOutcome key = .raises → t.clientAvailable = true →
      download_file t key localPath = .error ()) := by
  refine ⟨?_, ?_, ?_, ?_, ?_, ?_, ?_⟩
  · unfold upload_file
    cases hc : t.clientAvailable
    · exact ⟨none, by simp⟩
    · cases ho : t.uploadOutcome key <;> simp [ho]
  · unfold upload_from_filename
    cases hc : t.clientAvailable
    · exact ⟨none, by simp⟩
    · cases ho : t.uploadFromFilenameOutcome key <;> simp [ho]
  · unfold download_as_string
    cases hc : t.clientAvailable
    · exact ⟨none, by simp⟩
    · cases ho : t.downloadBytesOutcome key <;> simp [ho]
  · unfold generate_signed_url
    cases hc : t.clientAvailable
    · exact ⟨none, by simp⟩
    · cases he : t.existsOutcome key with
      | raises => simp [he]
      | ok b =>
          cases b
          · simp [he]
          · cases hu : t.signedUrlOutcome key <;> simp [he, hu]
  · unfold list_files_with_prefix
    cases hc : t.clientAvailable
    · exact ⟨[], by simp⟩
    · cases ho : t.listOutcome key <;> simp [ho]
  · intro hc
    unfold download_file
    simp [hc]
  · intro ho hc
    unfold download_file
    simp [hc, ho]

theorem C4_degrade_except_download_witness :
    (∃ v, upload_file offlineTier "content" "k" = .ok v) ∧
    (∃ v, upload_from_filename offlineTier "local" "k" = .ok v) ∧
    (∃ v, download_as_string offlineTier "k" = .ok v) ∧
    (∃ v, generate_signed_url offlineTier "k" = .ok v) ∧
    (∃ v, list_files_with_prefix offlineTier "k" = .ok v) ∧
    download_file offlineTier "k" "local" = .ok none := by
  have h := C4_degrade_except_download offlineTier "content" "k" "local"
  exact ⟨h.1, h.2.1, h.2.2.1, h.2.2.2.1, h.2.2.2.2.1, h.2.2.2.2.2.1 rfl⟩

/-! ## Helper lemmas: the event stream -/

lemma pageNumbers_processPages (N idx : Nat) (pages : List PageInputs) :
    pageNumbers (processPages N idx pages) =
      List.range' (idx + 1) pages.length := by
  induction pages generalizing idx with
  | nil => rfl
  | cons p rest ih =>
      simp only [processPages, pageNumbers, List.filterMap_cons, List.length_cons,
        List.range'_succ]
      exact congrArg _ (ih (idx + 1))

lemma progressValues_processPages (N idx : Nat) (pages : List PageInputs) :
    progressValues (processPages N idx pages) =
      (List.range' (idx + 1) pages.length).map
        (fun i => 30 + (i - 1) * 65 / N) := by
  induction pages generalizing idx with
  | nil => rfl
  | cons p rest ih =>
      simp only [processPages, progressValues, List.filterMap_cons,
        List.length_cons, List.range'_succ, List.map_cons]
      refine congrArg₂ _ ?_ (ih (idx + 1))
      simp [progress_percentage]

lemma pageNumbers_generateEvents (k : String) (pages : List PageInputs) :
    pageNumbers (generateEvents k pages) = List.range' 1 pages.length := by
  simp only [generateEvents, pageNumbers, List.filterMap_cons,
    List.filterMap_append]
  have h := pageNumbers_processPages pages.length 0 pages
  simp only [pageNumbers] at h
  simp [h]

lemma progressValues_generateEvents (k : String) (pages : List PageInputs) :
    progressValues (generateEvents k pages) =
      (List.range' 1 pages.length).map
        (fun i => 30 + (i - 1) * 65 / pages.length) := by
  simp only [generateEvents, progressValues, List.filterMap_cons,
    List.filterMap_append]
  have h := progressValues_processPages pages.length 0 pages
  simp only [progressValues] at h
  simp [h]

lemma page_event_mem (N idx : Nat) (pages : List PageInputs) (j : Nat)
    (hj : j < pages.length) :
    StreamEvent.page (idx + j + 1)
        (explanationOf (idx + j + 1) (pages.get ⟨j, hj⟩).explainResult)
        (audioOf (pages.get ⟨j, hj⟩).ttsResult)
      ∈ processPages N idx pages := by
  induction pages generalizing idx j with
  | nil => exact absurd hj (Nat.not_lt_zero j)
  | cons p rest ih =>
      cases j with
      | zero =>
          simp only [processPages, List.get, Nat.add_zero]
          exact List.mem_cons_of_mem _ (List.mem_cons_self _ _)
      | succ j' =>
          have hj' : j' < rest.length := Nat.lt_of_succ_lt_succ hj
          have hmem := ih (idx + 1) j' hj'
          have harith : idx + 1 + j' + 1 = idx + (j' + 1) + 1 := by omega
          rw [harith] at hmem
          simp only [processPages, List.get]
          exact List.mem_cons_of_mem _ (List.mem_cons_of_mem _ hmem)

/-- C5: in a completed ingestion stream over an N-page PDF the progress
values are, in page order, exactly `30 + (i - 1) * 65 / N` for pages
i = 1..N; in particular a 3-page PDF yields the values 30, 51, 73 in that
order. -/
theorem C5_progress_formula (k : String) (pages : List PageInputs) :
    progressValues (generate k (.ok pages)) =
      (List.range' 1 pages.length).map
        (fun i => 30 + (i - 1) * 65 / pages.length) ∧
    progressValues (generate k (.ok threePages)) = [30, 51, 73] := by
  constructor
  · exact progressValues_generateEvents k pages
  · rw [show generate k (.ok threePages) = generateEvents k threePages from rfl,
      progressValues_generateEvents k threePages]
    decide

/-- C7: a stream that runs to completion over an N-page source emits
exactly N page events with page_number strictly increasing from 1 to N,
and opens with an info event whose total_pages equals N. -/
theorem C7_page_order_and_count (k : String) (pages : List PageInputs) :
    pageNumbers (generate k (.ok pages)) = List.range' 1 pages.length ∧
    (generate k (.ok pages)).head? = some (.info pages.length k) := by
  exact ⟨pageNumbers_generateEvents k pages, rfl⟩

/-- C8: a page whose explanation capability raises and whose narration
capability raises still yields a page event — with the error-describing
placeholder explanation and empty audio bytes — and the stream still
carries page events for every page from 1 to N, so the pipeline is not
aborted. -/
theorem C8_per_page_degradation (k : String) (pages : List PageInputs)
    (j : Nat) (msg emsg : String) (hj : j < pages.length)
    (he : (pages.get ⟨j, hj⟩).explainResult = .error msg)
    (ht : (pages.get ⟨j, hj⟩).ttsResult = .error emsg) :
    StreamEvent.page (j + 1)
        ("Failed to generate explanation for page " ++ toString (j + 1)
          ++ ": " ++ msg) []
      ∈ generate k (.ok pages) ∧
    pageNumbers (generate k (.ok pages)) = List.range' 1 pages.length := by
  constructor
  · have hmem := page_event_mem pages.length 0 pages j hj
    rw [he, ht] at hmem
    simp only [Nat.zero_add] at hmem
    simp only [generate, generateEvents]
    exact List.mem_cons_of_mem _ (List.mem_append_left _ hmem)
  · exact pageNumbers_generateEvents k pages

theorem C8_per_page_degradation_witness :
    StreamEvent.page 1
        ("Failed to generate explanation for page " ++ toString 1
          ++ ": " ++ "boom") []
      ∈ generate "k" (.ok failingPages) ∧
    pageNumbers (generate "k" (.ok failingPages)) =
      List.range' 1 failingPages.length :=
  C8_per_page_degradation "k" failingPages 0 "boom" "tts down"
    (by decide) rfl rfl

/-- C2 counterexample: a model reply with a single question, two options
and correctAnswer "E" passes the code's validation and is returned as a
success — a partially-shaped result under the claim's definition
(`claimedQuizShape badQuiz = false`), refuting the claim that only exactly
5 questions with 4 options and a letter in {A,B,C,D} can be returned. -/
theorem C2_partial_shape_returned :
    generate_quiz_core (.parsed badQuiz) .parseFailure = .success badQuiz ∧
    claimedQuizShape badQuiz = false := ⟨rfl, rfl⟩

/-- C2 (amended): `generate_quiz` returns a success only when the first
reply parsed and passed the code's shape check (a list whose elements are
mappings with the keys question/options/correctAnswer — the question
count, option count and answer letter are not checked), or when the first
parse failed and the retry parsed (the retry result is returned with no
shape check at all); every other case is a structured failure or error
response. -/
theorem C2_quiz_shape_amended (first retry : QuizAttemptOutcome) (j : Json)
    (h : generate_quiz_core first retry = .success j) :
    (first = .parsed j ∧ quizValidationError j = none) ∨
    (first = .parseFailure ∧ retry = .parsed j) := by
  cases first with
  | parsed j' =>
      cases hv : quizValidationError j' with
      | none =>
          left
          simp only [generate_quiz_core, hv] at h
          cases h
          exact ⟨rfl, hv⟩
      | some msg =>
          simp only [generate_quiz_core, hv] at h
          cases h
  | parseFailure =>
      cases retry with
      | parsed j2 =>
          right
          simp only [generate_quiz_core] at h
          cases h
          exact ⟨rfl, rfl⟩
      | parseFailure =>
          simp only [generate_quiz_core] at h
          cases h

theorem C2_quiz_shape_amended_witness :
    (QuizAttemptOutcome.parsed goodQuiz3 = .parsed goodQuiz3 ∧
      quizValidationError goodQuiz3 = none) ∨
    (QuizAttemptOutcome.parsed goodQuiz3 = .parseFailure ∧
      QuizAttemptOutcome.parseFailure = .parsed goodQuiz3) :=
  C2_quiz_shape_amended (.parsed goodQuiz3) .parseFailure goodQuiz3 rfl

/-- C3 counterexample: a first reply that parses but fails shape
validation (here: not a list) is NOT retried — the route returns the
outer-handler error response, identical to what it returns when no retry
reply is available at all, even though a well-formed retry reply was on
offer. -/
theorem C3_no_retry_on_validation_failure :
    generate_quiz_core (.parsed (.str "not a list")) (.parsed goodQuiz3) =
      .errorResponse "Quiz data is not a list" ∧
    generate_quiz_core (.parsed (.str "not a list")) (.parsed goodQuiz3) =
      generate_quiz_core (.parsed (.str "not a list")) .parseFailure :=
  ⟨rfl, rfl⟩

/-- C3 (amended): the single retry happens only when quiz-JSON parsing
raises `JSONDecodeError`; a parsed reply that fails shape validation
surfaces the validation error as an error response with no retry; if the
retry parse also fails, the fixed generation-failure response is
returned, while a parsed retry is returned as-is without validation. -/
theorem C3_retry_only_on_parse_failure (retry : QuizAttemptOutcome)
    (j j2 : Json) (msg : String) :
    (quizValidationError j = some msg →
      generate_quiz_core (.parsed j) retry = .errorResponse msg) ∧
    (generate_quiz_core .parseFailure (.parsed j2) = .success j2) ∧
    (generate_quiz_core .parseFailure .parseFailure = .malformedFailure) := by
  refine ⟨?_, rfl, rfl⟩
  intro h
  simp only [generate_quiz_core, h]

theorem C3_retry_only_on_parse_failure_witness :
    generate_quiz_core (.parsed (.str "plain text")) (.parsed goodQuiz3) =
      .errorResponse "Quiz data is not a list" ∧
    generate_quiz_core .parseFailure (.parsed goodQuiz3) =
      .success goodQuiz3 ∧
    generate_quiz_core .parseFailure .parseFailure = .malformedFailure :=
  ⟨((C3_retry_only_on_parse_failure (.parsed goodQuiz3) (.str "plain text")
      goodQuiz3 "Quiz data is not a list").1 rfl),
   (C3_retry_only_on_parse_failure (.parsed goodQuiz3) (.str "plain text")
      goodQuiz3 "Quiz data is not a list").2.1,
   (C3_retry_only_on_parse_failure (.parsed goodQuiz3) (.str "plain text")
      goodQuiz3 "Quiz data is not a list").2.2⟩

/-! ## Helper lemmas: SQL LIKE matching -/

lemma likeFuel_nil_pattern (f : Nat) (s : List Char) :
    likeFuel (f + 1) [] s = s.isEmpty := rfl

lemma likeFuel_cons_nil (f : Nat) (b : Char) (bs : List Char) :
    likeFuel (f + 1) (b :: bs) [] =
      if b = '%' then likeFuel f bs [] || false else false := rfl

lemma likeFuel_cons_cons (f : Nat) (b : Char) (bs : List Char)
    (c : Char) (t : List Char) :
    likeFuel (f + 1) (b :: bs) (c :: t) =
      if b = '%' then likeFuel f bs (c :: t) || likeFuel f (b :: bs) t
      else (b = '_' || b.toLower = c.toLower) && likeFuel f bs t := rfl

lemma likeFuel_succ (f : Nat) (p s : List Char)
    (h : p.length + s.length ≤ f) :
    likeFuel (f + 1) p s = likeFuel f p s := by
  induction f generalizing p s with
  | zero =>
      have hp : p = [] := List.length_eq_zero.mp (by omega)
      have hs : s = [] := List.length_eq_zero.mp (by omega)
      subst hp; subst hs; rfl
  | succ f ih =>
      cases p with
      | nil => rfl
      | cons b bs =>
          cases s with
          | nil =>
              rw [likeFuel_cons_nil (f + 1), likeFuel_cons_nil f,
                ih bs [] (by simp only [List.length_cons, List.length_nil] at h ⊢; omega)]
          | cons c t =>
              rw [likeFuel_cons_cons (f + 1), likeFuel_cons_cons f,
                ih bs (c :: t) (by simp only [List.length_cons] at h ⊢; omega),
                ih (b :: bs) t (by simp only [List.length_cons] at h ⊢; omega),
                ih bs t (by simp only [List.length_cons] at h ⊢; omega)]

lemma likeFuel_of_le (p s : List Char) :
    ∀ f, p.length + s.length ≤ f → likeFuel f p s = sqlLikeMatch p s := by
  intro f
  induction f with
  | zero =>
      intro h
      have hp : p = [] := List.length_eq_zero.mp (by omega)
      have hs : s = [] := List.length_eq_zero.mp (by omega)
      subst hp; subst hs; rfl
  | succ f ih =>
      intro h
      rcases Nat.lt_or_ge f (p.length + s.length) with hlt | hge
      · have he : p.length + s.length = f + 1 := by omega
        rw [sqlLikeMatch, he]
      · rw [likeFuel_succ f p s hge, ih hge]

lemma sqlLikeMatch_cons_nil (b : Char) (bs : List Char) (hb : b ≠ '%') :
    sqlLikeMatch (b :: bs) [] = false := by
  have h : (b :: bs : List Char).length + ([] : List Char).length =
      bs.length + 1 := by simp
  rw [sqlLikeMatch, h, likeFuel_cons_nil, if_neg hb]

lemma sqlLikeMatch_cons_cons (b : Char) (bs : List Char) (hb : b ≠ '%')
    (c : Char) (t : List Char) :
    sqlLikeMatch (b :: bs) (c :: t) =
      ((b = '_' || b.toLower = c.toLower) && sqlLikeMatch bs t) := by
  have h : (b :: bs : List Char).length + (c :: t).length =
      (bs.length + t.length + 1) + 1 := by
    simp only [List.length_cons]; omega
  rw [sqlLikeMatch, h, likeFuel_cons_cons, if_neg hb,
    likeFuel_of_le bs t (bs.length + t.length + 1) (by omega)]

lemma sqlLikeMatch_percent_nil (bs : List Char) :
    sqlLikeMatch ('%' :: bs) [] = sqlLikeMatch bs [] := by
  have h : ('%' :: bs : List Char).length + ([] : List Char).length =
      bs.length + 1 := by simp
  rw [sqlLikeMatch, h, likeFuel_cons_nil, if_pos rfl,
    likeFuel_of_le bs [] bs.length (by simp), Bool.or_false]

lemma sqlLikeMatch_percent_cons (bs : List Char) (c : Char) (t : List Char) :
    sqlLikeMatch ('%' :: bs) (c :: t) =
      (sqlLikeMatch bs (c :: t) || sqlLikeMatch ('%' :: bs) t) := by
  have h : ('%' :: bs : List Char).length + (c :: t).length =
      (bs.length + t.length + 1) + 1 := by
    simp only [List.length_cons]; omega
  rw [sqlLikeMatch, h, likeFuel_cons_cons, if_pos rfl,
    likeFuel_of_le bs (c :: t) (bs.length + t.length + 1)
      (by simp only [List.length_cons]; omega),
    likeFuel_of_le ('%' :: bs) t (bs.length + t.length + 1)
      (by simp only [List.length_cons]; omega)]

lemma sqlLikeMatch_percent_all (s : List Char) :
    sqlLikeMatch ['%'] s = true := by
  induction s with
  | nil => rw [sqlLikeMatch_percent_nil]; rfl
  | cons c t ih => rw [sqlLikeMatch_percent_cons]; simp [ih]

/-- For a wildcard-free base, the pattern `base ++ "_%"` matches exactly
the strings that strictly extend `base` under ASCII-case-insensitive
comparison — the character consumed by the `_` wildcard being arbitrary,
not necessarily an underscore. -/
lemma sqlLikeMatch_base_underscore_percent (base : List Char)
    (hb : ∀ c ∈ base, c ≠ '%' ∧ c ≠ '_') (s : List Char) :
    (sqlLikeMatch (base ++ ['_', '%']) s = true ↔
      base.length < s.length ∧
        base.map Char.toLower <+: s.map Char.toLower) := by
  induction base generalizing s with
  | nil =>
      cases s with
      | nil =>
          rw [List.nil_append, sqlLikeMatch_cons_nil '_' ['%'] (by decide)]
          simp
      | cons c t =>
          rw [List.nil_append, sqlLikeMatch_cons_cons '_' ['%'] (by decide) c t]
          simp [sqlLikeMatch_percent_all]
  | cons b bs ih =>
      have hbp : b ≠ '%' := (hb b (List.mem_cons_self b bs)).1
      have hbu : b ≠ '_' := (hb b (List.mem_cons_self b bs)).2
      have hb' : ∀ c ∈ bs, c ≠ '%' ∧ c ≠ '_' :=
        fun c hc => hb c (List.mem_cons_of_mem b hc)
      cases s with
      | nil =>
          rw [List.cons_append, sqlLikeMatch_cons_nil b _ hbp]
          simp
      | cons c t =>
          rw [List.cons_append, sqlLikeMatch_cons_cons b _ hbp c t]
          by_cases hbc : b.toLower = c.toLower
          · have hor : ((b = '_' || b.toLower = c.toLower : Bool)) = true := by
              simp [hbc]
            rw [hor, Bool.true_and, ih hb' t]
            simp [List.cons_prefix_cons, hbc]
          · have hor : ((b = '_' || b.toLower = c.toLower : Bool)) = false := by
              simp [hbu, hbc]
            rw [hor, Bool.false_and]
            simp [List.cons_prefix_cons, hbc]

/-- C10 counterexample: the stored keys `"notesX"` and `"NotesXY"` extend
the base `"notes"` without an underscore (the second not even matching
its case), yet the lookup returns both — in sqlite LIKE the `_` is a
single-character wildcard and ordinary characters match
ASCII-case-insensitively — while the claim's matching rule rejects
both. -/
theorem C10_wildcard_counterexample :
    get_pdf_versions_by_name versionsDb "notes" = ["notesX", "NotesXY"] ∧
    claimedVersionMatch "notes" "notesX" = false ∧
    claimedVersionMatch "notes" "NotesXY" = false := by decide

/-- C10 (amended): for a base name containing no LIKE wildcard
characters, the lookup returns exactly the stored file_paths that either
equal the base name (the `=` query compares exactly) or extend it by at
least one further character under ASCII-case-insensitive comparison —
the first extra character being arbitrary (the `_` of the pattern is a
single-character wildcard), not necessarily an underscore. -/
theorem C10_version_lookup_amended (db : Catalog) (base : String)
    (hb : ∀ c ∈ base.data, c ≠ '%' ∧ c ≠ '_') (x : String) :
    x ∈ get_pdf_versions_by_name db base ↔
      ∃ r ∈ db.pdfs, r.file_path = x ∧
        (x = base ∨
          (base.data.map Char.toLower <+: x.data.map Char.toLower ∧
            base.data.length < x.data.length)) := by
  unfold get_pdf_versions_by_name
  simp only [List.mem_append, List.mem_map, List.mem_filter, beq_iff_eq]
  constructor
  · rintro (⟨r, ⟨hr, heq⟩, hx⟩ | ⟨r, ⟨hr, hlike⟩, hx⟩)
    · exact ⟨r, hr, hx, Or.inl (hx ▸ heq)⟩
    · refine ⟨r, hr, hx, Or.inr ?_⟩
      have hc := (sqlLikeMatch_base_underscore_percent base.data hb
        r.file_path.data).mp hlike
      rw [hx] at hc
      exact ⟨hc.2, hc.1⟩
  · rintro ⟨r, hr, hx, hcase⟩
    cases hcase with
    | inl hxb => exact Or.inl ⟨r, ⟨hr, hx.trans hxb⟩, hx⟩
    | inr hext =>
        refine Or.inr ⟨r, ⟨hr, ?_⟩, hx⟩
        rw [sqlLikeMatch_base_underscore_percent base.data hb r.file_path.data]
        rw [hx]
        exact ⟨hext.2, hext.1⟩

theorem C10_version_lookup_amended_witness :
    "NotesXY" ∈ get_pdf_versions_by_name versionsDb "notes" ↔
      ∃ r ∈ versionsDb.pdfs, r.file_path = "NotesXY" ∧
        ("NotesXY" = "notes" ∨
          ("notes".data.map Char.toLower <+: "NotesXY".data.map Char.toLower ∧
            "notes".data.length < "NotesXY".data.length)) :=
  C10_version_lookup_amended versionsDb "notes" (by decide) "NotesXY"

end StudyBuddy
